import Mathlib

/-!
Verification of the trustelem/ldap client core: a shallow embedding of the
bind family (`bind.go`), the directory-synchronization search driver
(`SearchWithDirSync`) and the `RootDSE` accessor, with theorems checking the
natural-language specification against the code.

Byte sequences (`[]byte`) are modelled as `List Nat`; Go `nil` versus
non-`nil` pointers/slices are modelled with `Option` where the code
distinguishes them.  Go runtime panics (failed unchecked type assertions)
are modelled as an explicit `panicked` outcome.
-/

namespace TrustelemLdap

/-- OID of the Microsoft DirSync control (request and response variants). -/
def ControlTypeMicrosoftDirSync : String := "1.2.840.113556.1.4.841"

/-- The request-side Microsoft DirSync control (`ControlMicrosoftDirSync`). -/
structure ControlMicrosoftDirSync where
  flags : Nat
  maxAttrCount : Nat
  cookie : List Nat
deriving DecidableEq, Repr

/-- The response-side Microsoft DirSync control
(`ControlMicrosoftDirSyncResponse`): cookie plus more-results indicator. -/
structure ControlMicrosoftDirSyncResponse where
  cookie : List Nat
  moreResults : Int
deriving DecidableEq, Repr

/-- A decoded protocol control: the two DirSync variants, or an opaque
control carrying its OID, criticality and raw value bytes. -/
inductive Control where
  | dirSync (c : ControlMicrosoftDirSync)
  | dirSyncResponse (c : ControlMicrosoftDirSyncResponse)
  | other (oid : String) (criticality : Bool) (raw : List Nat)
deriving DecidableEq, Repr

/-- The control type accessor: the OID identifying a control. -/
def controlType : Control → String
  | .dirSync _ => ControlTypeMicrosoftDirSync
  | .dirSyncResponse _ => ControlTypeMicrosoftDirSync
  | .other oid _ _ => oid

/-- Modelled from the spec: `FindControl` returns the first control in the
list whose OID matches the requested control type, or none. -/
def findControl : List Control → String → Option Control
  | [], _ => none
  | c :: cs, oid => if controlType c = oid then some c else findControl cs oid

/-- A directory entry: distinguished name and attributes. -/
structure Entry where
  dn : String
  attributes : List (String × List String)
deriving DecidableEq, Repr

/-- Accumulated result of a search: entries, referrals and controls. -/
structure SearchResult where
  entries : List Entry
  referrals : List String
  controls : List Control
deriving DecidableEq, Repr

/-- The caller-facing failure values produced by the embedded code, one
constructor per distinct error condition in the source. -/
inductive LDAPError where
  /-- Error `NewError(ErrorEmptyPassword, "ldap: empty password not allowed by the client")` -/
  | emptyPassword
  /-- Error `fmt.Errorf("expected dirSync control to be of type *ControlMicrosoftDirSync, ...")` -/
  | wrongDirSyncControlType
  /-- Error `NewError(ErrorNetwork, "ldap: packet not received")` -/
  | packetNotReceived
  /-- Error `NewError(ErrorNetwork, "ldap: response is missing DirSync control")` -/
  | missingDirSyncControl
  /-- Error `NewError(ErrorNetwork, "ldap: empty cookie in DirSync control response")` -/
  | emptyDirSyncCookie
  /-- Error `errors.New("Cannot get RootDSE")` -/
  | cannotGetRootDSE
  /-- non-zero server result code with the server's diagnostic text -/
  | resultCode (code : Int) (description : String)
  /-- Error `fmt.Errorf("failed to decode child control: ...")` -/
  | decodeControlFailed (msg : String)
  /-- malformed response envelope (ProtocolFormatError) -/
  | invalidResponse
  /-- other network-level failure surfaced by the transport -/
  | network (msg : String)
deriving DecidableEq, Repr

/-- What the stub server does on one round of a multi-round search: the
inner `l.Search` call returns an error, returns `nil, nil`, or returns a
(non-nil) `SearchResult`. -/
inductive RoundResp where
  | err (e : LDAPError)
  | nilResult
  | ok (r : SearchResult)
deriving DecidableEq, Repr

/-- Outcome of `SearchWithDirSync`: normal completion with the final cookie,
a failure together with the partial result the code returns alongside it
(`none` when the code returns a nil `*SearchResult`), or a Go runtime panic. -/
inductive DirSyncOutcome where
  | ok (res : SearchResult) (cookie : List Nat)
  | fail (res : Option SearchResult) (e : LDAPError)
  | panicked
deriving DecidableEq, Repr

/-- Element-wise append of one round's entries, referrals and controls onto
the accumulator (the three `for ... append` loops of `SearchWithDirSync`). -/
def appendResult (acc res : SearchResult) : SearchResult :=
  ⟨acc.entries ++ res.entries, acc.referrals ++ res.referrals,
    acc.controls ++ res.controls⟩

/-- The `for` loop of `SearchWithDirSync`.  `ck` is the cookie currently set
on the request's DirSync control, `acc` the accumulated `searchResult`, and
`rounds` the stub server's behaviour for the successive `l.Search` calls.
Returns the outcome (`none` when the supplied rounds run out before the loop
finishes) together with the trace of cookies sent, one per issued round. -/
def dirSyncLoop : List Nat → SearchResult → List RoundResp →
    Option DirSyncOutcome × List (List Nat)
  | _, _, [] => (none, [])
  | ck, acc, RoundResp.err e :: _ => (some (.fail (some acc) e), [ck])
  | ck, acc, RoundResp.nilResult :: _ =>
      (some (.fail (some acc) LDAPError.packetNotReceived), [ck])
  | ck, acc, RoundResp.ok res :: rest =>
    let acc := appendResult acc res
    match findControl res.controls ControlTypeMicrosoftDirSync with
    | none => (some (.fail (some acc) LDAPError.missingDirSyncControl), [ck])
    | some (Control.dirSyncResponse dr) =>
      if dr.cookie.length = 0 then
        (some (.fail (some acc) LDAPError.emptyDirSyncCookie), [ck])
      else if dr.moreResults = 0 then
        (some (.ok acc dr.cookie), [ck])
      else
        let next := dirSyncLoop dr.cookie acc rest
        (next.1, ck :: next.2)
    | some _ => (some DirSyncOutcome.panicked, [ck])

/-- Top level of `SearchWithDirSync`: ensure a DirSync control is present on the request
(appending a fresh one, or reusing an existing one after a checked cast that
fails cleanly on the wrong variant), set its cookie and flags, then run the
round loop.  `reqControls` are the controls already on the search request. -/
def SearchWithDirSync (reqControls : List Control) (cookie : List Nat)
    (flags : Nat) (rounds : List RoundResp) :
    Option DirSyncOutcome × List (List Nat) :=
  match findControl reqControls ControlTypeMicrosoftDirSync with
  | none =>
    -- a fresh control is appended; its cookie/flags are then set to the
    -- arguments, so the first round is issued with `cookie` (and `flags`)
    dirSyncLoop cookie ⟨[], [], []⟩ rounds
  | some (Control.dirSync _) =>
    -- existing control of the right type: cookie/flags overwritten
    dirSyncLoop cookie ⟨[], [], []⟩ rounds
  | some _ =>
    -- checked cast fails: return nil result, nil cookie and an error
    (some (.fail none LDAPError.wrongDirSyncControlType), [])

/-! ## BER packet model (the asn1-ber collaborator's `ber.Packet`) -/

/-- BER class of a packet (`ber.ClassUniversal`, `ber.ClassApplication`,
`ber.ClassContext`, `ber.ClassPrivate`). -/
inductive BerClass where
  | universal
  | application
  | context
  | priv
deriving DecidableEq, Repr

/-- Decoded value carried by a BER packet (`ber.Packet.Value`). -/
inductive BerValue where
  | int (i : Int)
  | str (s : String)
  | null
deriving DecidableEq, Repr

/-- One `ber.Packet`: class, constructed-ness, tag, decoded value, raw data
bytes and child packets. -/
inductive BerPacket where
  | mk (cls : BerClass) (constructed : Bool) (tag : Nat) (value : BerValue)
      (data : List Nat) (children : List BerPacket)

/-- Class of a packet. -/
def BerPacket.cls : BerPacket → BerClass
  | .mk c _ _ _ _ _ => c

/-- Constructed-ness flag of a packet (`ber.TypeConstructed`). -/
def BerPacket.constructed : BerPacket → Bool
  | .mk _ c _ _ _ _ => c

/-- Tag of a packet. -/
def BerPacket.tag : BerPacket → Nat
  | .mk _ _ t _ _ _ => t

/-- Decoded value of a packet. -/
def BerPacket.value : BerPacket → BerValue
  | .mk _ _ _ v _ _ => v

/-- Raw data bytes of a packet (`packet.Data.Bytes()`). -/
def BerPacket.data : BerPacket → List Nat
  | .mk _ _ _ _ d _ => d

/-- Child packets. -/
def BerPacket.children : BerPacket → List BerPacket
  | .mk _ _ _ _ _ cs => cs

/-- Protocol constants used by the bind family. -/
def ApplicationBindRequest : Nat := 0

/-- BER tag of an integer. -/
def TagInteger : Nat := 2

/-- BER tag of an octet string. -/
def TagOctetString : Nat := 4

/-- BER tag of a sequence. -/
def TagSequence : Nat := 16

/-- Modelled from the spec: client-side error code for network failures
(`ErrorNetwork`); the exact numeric value is immaterial to the claims. -/
def ErrorNetwork : Nat := 200

/-- Modelled from the spec: client-side error code for an unexpected
response (`ErrorUnexpectedResponse`). -/
def ErrorUnexpectedResponse : Nat := 205

/-- `ber.Encode(cls, type, tag, nil, desc)`: an empty packet. -/
def berEncode (cls : BerClass) (constructed : Bool) (tag : Nat) : BerPacket :=
  .mk cls constructed tag .null [] []

/-- `ber.NewInteger`. -/
def berNewInteger (cls : BerClass) (constructed : Bool) (tag : Nat)
    (i : Int) : BerPacket :=
  .mk cls constructed tag (.int i) [] []

/-- `ber.NewString`. -/
def berNewString (cls : BerClass) (constructed : Bool) (tag : Nat)
    (s : String) : BerPacket :=
  .mk cls constructed tag (.str s) [] []

/-- `packet.AppendChild(child)`. -/
def BerPacket.appendChild : BerPacket → BerPacket → BerPacket
  | .mk c k t v d cs, child => .mk c k t v d (cs ++ [child])

/-! ## Bind family (`bind.go`) -/

/-- `SimpleBindRequest`: username, password, optional controls, and the
explicit opt-in flag for empty-password binds. -/
structure SimpleBindRequest where
  username : String
  password : String
  controls : List Control
  allowEmptyPassword : Bool
deriving DecidableEq, Repr

/-- `SimpleBindResult`: the response controls returned by the server. -/
structure SimpleBindResult where
  controls : List Control
deriving DecidableEq, Repr

/-- Modelled from the spec: `encodeControls` packs the request controls into
one tagged-sequence packet attached to the envelope; the tag/length/value
codec is out of scope, so this model records each control's OID as a string
child. -/
def encodeControl (c : Control) : BerPacket :=
  .mk .universal true TagSequence .null []
    [berNewString .universal false TagOctetString (controlType c)]

/-- Modelled from the spec: the controls section of an envelope is one
context-tagged constructed sequence of encoded controls. -/
def encodeControls (cs : List Control) : BerPacket :=
  .mk .context true 0 .null [] (cs.map encodeControl)

/-- `SimpleBindRequest.appendTo`: append the application-tagged bind request
(version 3 integer, username octet string, context-tagged password) to the
envelope, then the encoded controls when there is at least one. -/
def SimpleBindRequest.appendTo (req : SimpleBindRequest)
    (envelope : BerPacket) : BerPacket :=
  let pkt := berEncode .application true ApplicationBindRequest
  let pkt := pkt.appendChild (berNewInteger .universal false TagInteger 3)
  let pkt := pkt.appendChild
    (berNewString .universal false TagOctetString req.username)
  let pkt := pkt.appendChild (berNewString .context false 0 req.password)
  let env := envelope.appendChild pkt
  if req.controls.length > 0 then env.appendChild (encodeControls req.controls)
  else env

/-- Modelled from the spec: `DecodeControl` turns one raw control packet (an
OID string child, an optional criticality, and a value) into a typed variant
for the recognized DirSync OID and an opaque control otherwise; a malformed
packet is a clean decode failure, never a crash. -/
def DecodeControl (p : BerPacket) : Except String Control :=
  match p.children with
  | [] => .error "at least one child is required"
  | oidPkt :: rest =>
    match oidPkt.value with
    | .str oid =>
      if oid = ControlTypeMicrosoftDirSync then
        match rest.getLast? with
        | some valuePkt =>
          match valuePkt.children with
          | morePkt :: _ :: cookiePkt :: _ =>
            match morePkt.value with
            | .int m => .ok (.dirSyncResponse ⟨cookiePkt.data, m⟩)
            | _ => .error "failed to decode dirsync control value"
          | _ => .error "failed to decode dirsync control value"
        | none => .error "failed to decode dirsync control value"
      else
        let crit := match rest with
          | critPkt :: _ =>
            match critPkt.value with
            | .int i => if i = 0 then false else true
            | _ => false
          | [] => false
        .ok (.other oid crit p.data)
    | _ => .error "control OID is not a string"

/-- The decode loop of `SimpleBind` over the children of the controls
section: the first failing child aborts the whole call. -/
def decodeControls : List BerPacket → Except String (List Control)
  | [] => .ok []
  | c :: cs =>
    match DecodeControl c with
    | .error e => .error e
    | .ok d =>
      match decodeControls cs with
      | .error e => .error e
      | .ok ds => .ok (d :: ds)

/-- Modelled from the spec: `GetLDAPError` reads the result code and the
diagnostic message from the operation response (second child of the
envelope); code 0 is success, any other code is a ResultCodeError carrying
the server's diagnostic text; a malformed envelope is a format error. -/
def GetLDAPError (packet : BerPacket) : Option LDAPError :=
  match packet.children with
  | _ :: response :: _ =>
    match response.children with
    | codePkt :: _ :: diagPkt :: _ =>
      match codePkt.value, diagPkt.value with
      | .int i, .str s =>
        if i = 0 then none else some (.resultCode i s)
      | _, _ => some .invalidResponse
    | _ => some .invalidResponse
  | _ => some .invalidResponse

/-- Connection state observed by the claims: the next message ID and the
frames written to the transport so far. -/
structure ConnState where
  nextMessageID : Nat
  writes : List BerPacket

/-- Modelled from the spec: `doRequest` wraps the operation in an envelope
(a universal sequence whose first child is the allocated message ID), lets
the request append itself, and writes the frame. -/
def mkEnvelope (msgID : Nat) : BerPacket :=
  (berEncode .universal true TagSequence).appendChild
    (berNewInteger .universal false TagInteger (Int.ofNat msgID))

/-- The control-decoding step of `SimpleBind`: controls are decoded only
when the response envelope has exactly three children (message ID, bind
response, controls section); otherwise the controls list stays empty. -/
def bindResponseControls (packet : BerPacket) : Except String (List Control) :=
  match packet.children with
  | [_, _, ctrls] => decodeControls ctrls.children
  | _ => Except.ok []

/-- `SimpleBind`: guard against empty passwords without explicit opt-in,
submit the request (allocating a message ID and writing one frame), then
decode response controls when the envelope has a controls section (third
child) and validate the result code.  `transport` is the outcome of
`doRequest`/`readPacket`: the response packet or a transport failure. -/
def SimpleBind (st : ConnState) (req : SimpleBindRequest)
    (transport : Except LDAPError BerPacket) :
    (Option SimpleBindResult × Option LDAPError) × ConnState :=
  if req.password = "" ∧ req.allowEmptyPassword = false then
    ((none, some LDAPError.emptyPassword), st)
  else
    let envelope := req.appendTo (mkEnvelope st.nextMessageID)
    let st := ⟨st.nextMessageID + 1, st.writes ++ [envelope]⟩
    match transport with
    | .error e => ((none, some e), st)
    | .ok packet =>
      match bindResponseControls packet with
      | .error msg => ((none, some (.decodeControlFailed msg)), st)
      | .ok ds => ((some ⟨ds⟩, GetLDAPError packet), st)

/-- Result of `getSASLBindResultCode`: the code (as converted to `uint8`),
the optional response token, and the description; or a Go panic when an
unchecked `Value` cast fails. -/
inductive SASLCodeResult where
  | res (code : Int) (token : Option (List Nat)) (description : String)
  | panicked
deriving DecidableEq, Repr

/-- `getSASLBindResultCode`: from a (possibly nil) response packet, extract
the result code (`uint8(int64)` conversion, i.e. the value modulo 256), the
optional response token (fourth child of the bind response) and the
diagnostic description; malformed shapes give `ErrorNetwork` or
`ErrorUnexpectedResponse` with a fixed description. -/
def getSASLBindResultCode : Option BerPacket → SASLCodeResult
  | none => .res (Int.ofNat ErrorUnexpectedResponse) none "Empty packet"
  | some p =>
    match p.children with
    | _ :: response :: _ =>
      if response.cls = BerClass.application ∧ response.constructed = true then
        match response.children with
        | codePkt :: _ :: diagPkt :: rest =>
          match codePkt.value, diagPkt.value with
          | .int i, .str s =>
            let token : Option (List Nat) :=
              match rest with
              | tokPkt :: _ => some tokPkt.data
              | [] => none
            .res (Int.emod i 256) token s
          | _, _ => .panicked
        | _ => .res (Int.ofNat ErrorNetwork) none "Invalid packet format"
      else .res (Int.ofNat ErrorNetwork) none "Invalid packet format"
    | _ => .res (Int.ofNat ErrorNetwork) none "Invalid packet format"

/-- Outcome of an embedded operation: success, an error value, or a Go
runtime panic. -/
inductive Outcome (α : Type) where
  | ok (a : α)
  | err (e : LDAPError)
  | panicked
deriving DecidableEq, Repr

/-- `SASLBind`: send the one-round SASL bind (mechanism plus credentials)
and interpret the response via `getSASLBindResultCode`; a non-zero code is a
failure carrying that code and description, a zero code returns the
extracted token.  `resp` is the transport outcome: a failure, or the read
packet (`none` for a nil packet). -/
def SASLBind (mechanism : String) (credentials : List Nat)
    (resp : Except LDAPError (Option BerPacket)) : Outcome (Option (List Nat)) :=
  match resp with
  | .error e => .err e
  | .ok p =>
    match getSASLBindResultCode p with
    | .panicked => .panicked
    | .res code token description =>
      if code ≠ 0 then .err (.resultCode code description)
      else .ok token

/-! ## RootDSE accessor -/

/-- Search scope constant `ScopeBaseObject`. -/
def ScopeBaseObject : Nat := 0

/-- Alias-dereferencing constant `NeverDerefAliases`. -/
def NeverDerefAliases : Nat := 0

/-- A search request; `attributes = none` models a nil Go slice (server
returns its default attributes). -/
structure SearchRequest where
  baseDN : String
  scope : Nat
  derefAliases : Nat
  sizeLimit : Nat
  timeLimit : Nat
  typesOnly : Bool
  filter : String
  attributes : Option (List String)
  controls : List Control
deriving DecidableEq, Repr

/-- Modelled from the spec: `NewSearchRequest` fills the request fields in
order. -/
def NewSearchRequest (baseDN : String) (scope : Nat) (derefAliases : Nat)
    (sizeLimit : Nat) (timeLimit : Nat) (typesOnly : Bool) (filter : String)
    (attributes : Option (List String)) (controls : List Control) :
    SearchRequest :=
  ⟨baseDN, scope, derefAliases, sizeLimit, timeLimit, typesOnly, filter,
    attributes, controls⟩

/-- `RootDSE`: issue a base-object search at the empty DN with filter
"(objectclass=*)" and the caller's attribute list (nil when none given);
require exactly one entry, returned unchanged.  `search` is the connection's
search primitive. -/
def RootDSE (search : SearchRequest → Except LDAPError SearchResult)
    (fields : List String) : Except LDAPError Entry :=
  let fields := if fields.length = 0 then none else some fields
  let searchReq := NewSearchRequest "" ScopeBaseObject NeverDerefAliases 0 0
    false "(objectclass=*)" fields []
  match search searchReq with
  | .error e => .error e
  | .ok res =>
    match res.entries with
    | [rootEntry] => .ok rootEntry
    | _ => .error .cannotGetRootDSE

/-! ## Helper lemmas -/

/-- The cookie sent on a round is the head of the trace: whenever at least
one round is issued, the trace starts with the cookie currently set on the
request's DirSync control. -/
theorem dirSyncLoop_trace_head (ck : List Nat) (acc : SearchResult)
    (r : RoundResp) (rest : List RoundResp) :
    ∃ tr, (dirSyncLoop ck acc (r :: rest)).2 = ck :: tr := by
  cases r with
  | err e => exact ⟨[], rfl⟩
  | nilResult => exact ⟨[], rfl⟩
  | ok res =>
    simp only [dirSyncLoop]
    rcases hf : findControl res.controls ControlTypeMicrosoftDirSync with _ | c
    · simp [hf]
    · cases c with
      | dirSync c => simp [hf]
      | dirSyncResponse dr =>
        by_cases h0 : dr.cookie.length = 0
        · simp [hf, h0]
        · by_cases hm : dr.moreResults = 0 <;> simp [hf, h0, hm]
      | other o cr raw => simp [hf]

/-! ## Claim theorems -/

/-- C1: a directory-sync round whose DirSync response control carries an
empty cookie fails (with the dedicated empty-cookie protocol-violation
error, realized in the code as `NewError(ErrorNetwork, "ldap: empty cookie
in DirSync control response")`) instead of being treated as completion —
for every round of the loop (arbitrary accumulator) and in particular for
the first round of `SearchWithDirSync`, regardless of the more-results
indicator. -/
theorem dirSync_empty_cookie_fails (ck : List Nat) (acc res : SearchResult)
    (rest : List RoundResp) (dr : ControlMicrosoftDirSyncResponse)
    (flags : Nat)
    (hfind : findControl res.controls ControlTypeMicrosoftDirSync =
      some (Control.dirSyncResponse dr))
    (hck : dr.cookie = []) :
    (dirSyncLoop ck acc (RoundResp.ok res :: rest)).1 =
      some (DirSyncOutcome.fail (some (appendResult acc res))
        LDAPError.emptyDirSyncCookie) ∧
    (SearchWithDirSync [] ck flags (RoundResp.ok res :: rest)).1 =
      some (DirSyncOutcome.fail (some (appendResult ⟨[], [], []⟩ res))
        LDAPError.emptyDirSyncCookie) := by
  constructor
  · simp [dirSyncLoop, hfind, hck]
  · simp [SearchWithDirSync, findControl, dirSyncLoop, hfind, hck]

/-- Witness for C1 at a concrete input whose more-results indicator is 0,
i.e. a round that would otherwise look like end-of-data. -/
theorem dirSync_empty_cookie_fails_witness :
    (dirSyncLoop [9] ⟨[], [], []⟩
        [RoundResp.ok ⟨[], [], [Control.dirSyncResponse ⟨[], 0⟩]⟩]).1 =
      some (DirSyncOutcome.fail
        (some ⟨[], [], [Control.dirSyncResponse ⟨[], 0⟩]⟩)
        LDAPError.emptyDirSyncCookie) :=
  (dirSync_empty_cookie_fails [9] ⟨[], [], []⟩
    ⟨[], [], [Control.dirSyncResponse ⟨[], 0⟩]⟩ [] ⟨[], 0⟩ 0 rfl rfl).1

/-- C2: a simple bind whose password is empty without the explicit
empty-password opt-in fails with the client-misuse error and leaves the
connection state untouched: nothing is written to the transport and no
message ID is consumed. -/
theorem simpleBind_empty_password_guard (st : ConnState)
    (req : SimpleBindRequest) (transport : Except LDAPError BerPacket)
    (hpw : req.password = "") (hallow : req.allowEmptyPassword = false) :
    SimpleBind st req transport = ((none, some LDAPError.emptyPassword), st) := by
  simp [SimpleBind, hpw, hallow]

/-- Witness for C2 at a concrete request and state. -/
theorem simpleBind_empty_password_guard_witness :
    SimpleBind ⟨5, []⟩ ⟨"cn=admin,dc=example,dc=com", "", [], false⟩
        (Except.error LDAPError.invalidResponse) =
      ((none, some LDAPError.emptyPassword), ⟨5, []⟩) :=
  simpleBind_empty_password_guard ⟨5, []⟩
    ⟨"cn=admin,dc=example,dc=com", "", [], false⟩
    (Except.error LDAPError.invalidResponse) rfl rfl

/-- C3: a round whose DirSync response control carries a non-zero
more-results indicator (and a non-empty cookie) continues the loop with the
server's new cookie set on the next round's request (the cookie trace of
the remaining rounds starts with the new cookie); the first round with
more-results 0 terminates the loop and the cookie handed back to the caller
is exactly the cookie the server supplied on that round. -/
theorem dirSync_continuation_and_final_cookie (ck : List Nat)
    (acc res : SearchResult) (rest : List RoundResp)
    (dr : ControlMicrosoftDirSyncResponse)
    (hfind : findControl res.controls ControlTypeMicrosoftDirSync =
      some (Control.dirSyncResponse dr))
    (hck : dr.cookie ≠ []) :
    (dr.moreResults = 0 →
      dirSyncLoop ck acc (RoundResp.ok res :: rest) =
        (some (DirSyncOutcome.ok (appendResult acc res) dr.cookie), [ck])) ∧
    (dr.moreResults ≠ 0 →
      dirSyncLoop ck acc (RoundResp.ok res :: rest) =
        ((dirSyncLoop dr.cookie (appendResult acc res) rest).1,
          ck :: (dirSyncLoop dr.cookie (appendResult acc res) rest).2)) ∧
    (dr.moreResults ≠ 0 → ∀ r2 rest2, rest = r2 :: rest2 →
      ∃ tr, (dirSyncLoop ck acc (RoundResp.ok res :: rest)).2 =
        ck :: dr.cookie :: tr) := by
  have hlen : ¬dr.cookie.length = 0 := by
    simpa using hck
  refine ⟨?_, ?_, ?_⟩
  · intro hm
    simp [dirSyncLoop, hfind, hlen, hm]
  · intro hm
    simp [dirSyncLoop, hfind, hlen, hm]
  · intro hm r2 rest2 hrest
    subst hrest
    obtain ⟨tr, htr⟩ :=
      dirSyncLoop_trace_head dr.cookie (appendResult acc res) r2 rest2
    refine ⟨tr, ?_⟩
    simp [dirSyncLoop, hfind, hlen, hm, htr]

/-- Witness for C3: a two-round exchange; round one carries more-results 1
and cookie `[5]`, round two carries more-results 0 and cookie `[6]`; the
loop sends `[5]` on the second round and returns final cookie `[6]`. -/
theorem dirSync_continuation_and_final_cookie_witness :
    dirSyncLoop [1] ⟨[], [], []⟩
        [RoundResp.ok ⟨[], [], [Control.dirSyncResponse ⟨[5], 1⟩]⟩,
         RoundResp.ok ⟨[], [], [Control.dirSyncResponse ⟨[6], 0⟩]⟩] =
      (some (DirSyncOutcome.ok
        ⟨[], [],
          [Control.dirSyncResponse ⟨[5], 1⟩,
           Control.dirSyncResponse ⟨[6], 0⟩]⟩ [6]), [[1], [5]]) := by
  have h := (dirSync_continuation_and_final_cookie [1] ⟨[], [], []⟩
    ⟨[], [], [Control.dirSyncResponse ⟨[5], 1⟩]⟩
    [RoundResp.ok ⟨[], [], [Control.dirSyncResponse ⟨[6], 0⟩]⟩]
    ⟨[5], 1⟩ rfl (by decide)).2.1 (by decide)
  rw [h]
  rfl

/-- C4 counterexample: a one-round exchange whose response carries an entry
but no DirSync control.  Zero rounds completed before the failing round, so
the claim as stated predicts an empty partial result; the code returns the
failing round's entry inside the partial result (it appends the round's
data before checking for the control). -/
theorem dirSync_partial_result_counterexample :
    (SearchWithDirSync [] [1] 0
        [RoundResp.ok ⟨[⟨"cn=x", []⟩], [], []⟩]).1 =
      some (DirSyncOutcome.fail (some ⟨[⟨"cn=x", []⟩], [], []⟩)
        LDAPError.missingDirSyncControl) ∧
    (⟨[⟨"cn=x", []⟩], [], []⟩ : SearchResult) ≠ (⟨[], [], []⟩ : SearchResult) := by
  exact ⟨rfl, by decide⟩

/-- C4 as amended: on any round failure the loop stops and returns the
failure together with the partial `SearchResult` accumulated so far; for a
search error or a nil result this is exactly the data appended before the
failing round, while for a missing DirSync control or an empty cookie it
additionally includes the failing round's entries, referrals and controls,
which the code appends before performing those checks. -/
theorem dirSync_partial_result_on_failure (ck : List Nat)
    (acc : SearchResult) (rest : List RoundResp) :
    (∀ e, dirSyncLoop ck acc (RoundResp.err e :: rest) =
      (some (DirSyncOutcome.fail (some acc) e), [ck])) ∧
    (dirSyncLoop ck acc (RoundResp.nilResult :: rest) =
      (some (DirSyncOutcome.fail (some acc) LDAPError.packetNotReceived),
        [ck])) ∧
    (∀ res, findControl res.controls ControlTypeMicrosoftDirSync = none →
      dirSyncLoop ck acc (RoundResp.ok res :: rest) =
        (some (DirSyncOutcome.fail (some (appendResult acc res))
          LDAPError.missingDirSyncControl), [ck])) ∧
    (∀ res dr,
      findControl res.controls ControlTypeMicrosoftDirSync =
        some (Control.dirSyncResponse dr) →
      dr.cookie = [] →
      dirSyncLoop ck acc (RoundResp.ok res :: rest) =
        (some (DirSyncOutcome.fail (some (appendResult acc res))
          LDAPError.emptyDirSyncCookie), [ck])) := by
  refine ⟨fun e => rfl, rfl, ?_, ?_⟩
  · intro res hfind
    simp [dirSyncLoop, hfind]
  · intro res dr hfind hck
    simp [dirSyncLoop, hfind, hck]

/-- Witness for C4 (amended) on a concrete failing round of each flavour:
a search error keeps the prior accumulator, while a missing control also
carries the failing round's entry. -/
theorem dirSync_partial_result_on_failure_witness :
    dirSyncLoop [2] ⟨[⟨"cn=a", []⟩], [], []⟩
        [RoundResp.err LDAPError.invalidResponse] =
      (some (DirSyncOutcome.fail (some ⟨[⟨"cn=a", []⟩], [], []⟩)
        LDAPError.invalidResponse), [[2]]) ∧
    dirSyncLoop [2] ⟨[⟨"cn=a", []⟩], [], []⟩
        [RoundResp.ok ⟨[⟨"cn=b", []⟩], [], []⟩] =
      (some (DirSyncOutcome.fail
        (some ⟨[⟨"cn=a", []⟩, ⟨"cn=b", []⟩], [], []⟩)
        LDAPError.missingDirSyncControl), [[2]]) :=
  ⟨(dirSync_partial_result_on_failure [2] ⟨[⟨"cn=a", []⟩], [], []⟩ []).1
      LDAPError.invalidResponse,
    (dirSync_partial_result_on_failure [2] ⟨[⟨"cn=a", []⟩], [], []⟩ []).2.2.1
      ⟨[⟨"cn=b", []⟩], [], []⟩ rfl⟩

/-- C6 (code bug): when the control found under the DirSync OID in a
response is not the response variant — here it is the request-side
`ControlMicrosoftDirSync` — the code's unchecked type assertion
`dirSyncResult.(*ControlMicrosoftDirSyncResponse)` panics instead of
failing cleanly with a typed error, contradicting the spec's requirement
that variant extraction from a decoded control never crashes. -/
theorem dirSync_response_cast_panics :
    (SearchWithDirSync [] [0] 1
        [RoundResp.ok ⟨[], [], [Control.dirSync ⟨0, 0, [1]⟩]⟩]).1 =
      some DirSyncOutcome.panicked := rfl

/-- C5: `RootDSE` issues a search with empty base DN, base-object scope,
filter "(objectclass=*)" and the caller's attribute list (nil when the
caller specifies none); if that search yields exactly one entry the entry
is returned unchanged, and zero or more than one entries fail the call. -/
theorem rootDSE_request_and_single_entry (fields : List String)
    (search : SearchRequest → Except LDAPError SearchResult)
    (res : SearchResult) (req : SearchRequest)
    (hreq : req = NewSearchRequest "" ScopeBaseObject NeverDerefAliases 0 0
      false "(objectclass=*)"
      (if fields.length = 0 then none else some fields) [])
    (hres : search req = Except.ok res) :
    req.baseDN = "" ∧ req.scope = ScopeBaseObject ∧
    req.filter = "(objectclass=*)" ∧
    req.attributes = (if fields.length = 0 then none else some fields) ∧
    (∀ e, res.entries = [e] → RootDSE search fields = Except.ok e) ∧
    (res.entries.length ≠ 1 →
      RootDSE search fields = Except.error LDAPError.cannotGetRootDSE) := by
  subst hreq
  simp only [NewSearchRequest] at hres
  refine ⟨rfl, rfl, rfl, rfl, ?_, ?_⟩
  · intro e he
    simp only [RootDSE, NewSearchRequest]
    rw [hres]
    simp [he]
  · intro hn
    rcases hes : res.entries with _ | ⟨e1, _ | ⟨e2, tl⟩⟩
    · simp only [RootDSE, NewSearchRequest]
      rw [hres]
      simp [hes]
    · exact absurd (by simp [hes]) hn
    · simp only [RootDSE, NewSearchRequest]
      rw [hres]
      simp [hes]

/-- Witness for C5: a stub search returning exactly one entry; `RootDSE`
returns that entry unchanged. -/
theorem rootDSE_request_and_single_entry_witness :
    RootDSE (fun _ => Except.ok
        ⟨[⟨"", [("dnsHostName", ["srv1"])]⟩], [], []⟩)
      ["dnsHostName"] = Except.ok ⟨"", [("dnsHostName", ["srv1"])]⟩ :=
  ((rootDSE_request_and_single_entry ["dnsHostName"]
      (fun _ => Except.ok ⟨[⟨"", [("dnsHostName", ["srv1"])]⟩], [], []⟩)
      ⟨[⟨"", [("dnsHostName", ["srv1"])]⟩], [], []⟩
      _ rfl rfl).2.2.2.2.1) ⟨"", [("dnsHostName", ["srv1"])]⟩ rfl

/-- C7: response controls are decoded only when the response envelope has a
controls section (a third child); for a two-child envelope with result code
0 the call succeeds with a zero-length controls list, and for a non-zero
result code the call yields the result-code error carrying the server's
diagnostic text. -/
theorem simpleBind_no_controls_section (st : ConnState)
    (req : SimpleBindRequest)
    (p midPkt respPkt codePkt dnPkt diagPkt : BerPacket)
    (extra : List BerPacket) (i : Int) (s : String)
    (hguard : ¬(req.password = "" ∧ req.allowEmptyPassword = false))
    (hp : p.children = [midPkt, respPkt])
    (hresp : respPkt.children = codePkt :: dnPkt :: diagPkt :: extra)
    (hcode : codePkt.value = BerValue.int i)
    (hdiag : diagPkt.value = BerValue.str s) :
    (SimpleBind st req (Except.ok p)).1 =
      (some ⟨[]⟩,
        if i = 0 then none else some (LDAPError.resultCode i s)) := by
  simp [SimpleBind, hguard, bindResponseControls, GetLDAPError, hp, hresp,
    hcode, hdiag]

/-- Witness for C7: a stub two-child response with result code 0; the bind
succeeds with an empty controls list. -/
theorem simpleBind_no_controls_section_witness :
    (SimpleBind ⟨1, []⟩ ⟨"cn=admin,dc=example,dc=com", "", [], true⟩
        (Except.ok (BerPacket.mk BerClass.universal true TagSequence
          BerValue.null []
          [berNewInteger BerClass.universal false TagInteger 1,
           BerPacket.mk BerClass.application true 1 BerValue.null []
             [berNewInteger BerClass.universal false TagInteger 0,
              berNewString BerClass.universal false TagOctetString "",
              berNewString BerClass.universal false TagOctetString ""]]))).1 =
      (some ⟨[]⟩, none) := by
  have h := simpleBind_no_controls_section ⟨1, []⟩
    ⟨"cn=admin,dc=example,dc=com", "", [], true⟩
    (BerPacket.mk BerClass.universal true TagSequence BerValue.null []
      [berNewInteger BerClass.universal false TagInteger 1,
       BerPacket.mk BerClass.application true 1 BerValue.null []
         [berNewInteger BerClass.universal false TagInteger 0,
          berNewString BerClass.universal false TagOctetString "",
          berNewString BerClass.universal false TagOctetString ""]])
    (berNewInteger BerClass.universal false TagInteger 1)
    (BerPacket.mk BerClass.application true 1 BerValue.null []
      [berNewInteger BerClass.universal false TagInteger 0,
       berNewString BerClass.universal false TagOctetString "",
       berNewString BerClass.universal false TagOctetString ""])
    (berNewInteger BerClass.universal false TagInteger 0)
    (berNewString BerClass.universal false TagOctetString "")
    (berNewString BerClass.universal false TagOctetString "")
    [] 0 "" (by decide) rfl rfl rfl rfl
  simpa using h

/-- C8: the encoded simple bind request is an application-tagged constructed
packet whose children are, in order, the version as a universal integer
with value exactly 3, the username as a universal octet string, and the
password as a context-class primitive with tag 0; the encoded controls are
appended to the envelope only when the request carries at least one
control. -/
theorem simpleBindRequest_appendTo_shape (req : SimpleBindRequest)
    (envelope : BerPacket) :
    (req.appendTo envelope).children =
      envelope.children ++
        [BerPacket.mk BerClass.application true ApplicationBindRequest
          BerValue.null []
          [berNewInteger BerClass.universal false TagInteger 3,
           berNewString BerClass.universal false TagOctetString req.username,
           berNewString BerClass.context false 0 req.password]] ++
        (if req.controls.length > 0 then [encodeControls req.controls]
         else []) := by
  cases envelope with
  | mk c k t v d cs =>
    by_cases h : req.controls.length > 0 <;>
      simp [SimpleBindRequest.appendTo, BerPacket.appendChild, berEncode,
        BerPacket.children, h]

/-- C9: for a well-shaped SASL bind response envelope, the result code is
extracted as the first child of the bind response converted to `uint8`
(value modulo 256), the description as the third child; a non-zero code
yields a failure carrying that code and description, and a zero code
returns the response token — the fourth child's data bytes when present,
nil otherwise. -/
theorem saslBind_result_extraction (mechanism : String)
    (credentials : List Nat)
    (p midPkt response codePkt mPkt diagPkt : BerPacket)
    (rest tail : List BerPacket) (i : Int) (s : String)
    (hp : p.children = midPkt :: response :: tail)
    (hcls : response.cls = BerClass.application)
    (hcon : response.constructed = true)
    (hresp : response.children = codePkt :: mPkt :: diagPkt :: rest)
    (hcode : codePkt.value = BerValue.int i)
    (hdiag : diagPkt.value = BerValue.str s) :
    SASLBind mechanism credentials (Except.ok (some p)) =
      (if Int.emod i 256 = 0 then
        Outcome.ok (match rest with
          | tokPkt :: _ => some tokPkt.data
          | [] => none)
      else Outcome.err (LDAPError.resultCode (Int.emod i 256) s)) := by
  by_cases h0 : Int.emod i 256 = 0 <;>
    cases rest <;>
      simp [SASLBind, getSASLBindResultCode, hp, hcls, hcon, hresp, hcode,
        hdiag, h0]

/-- Witness for C9: a concrete response with code 0 and a fourth child
carrying token bytes `[7, 7]`; the bind returns that token. -/
theorem saslBind_result_extraction_witness :
    SASLBind "GSSAPI" [1]
        (Except.ok (some (BerPacket.mk BerClass.universal true TagSequence
          BerValue.null []
          [berNewInteger BerClass.universal false TagInteger 2,
           BerPacket.mk BerClass.application true 1 BerValue.null []
             [berNewInteger BerClass.universal false TagInteger 0,
              berNewString BerClass.universal false TagOctetString "",
              berNewString BerClass.universal false TagOctetString "",
              BerPacket.mk BerClass.context false 7 BerValue.null [7, 7]
                []]]))) =
      Outcome.ok (some [7, 7]) := by
  have h := saslBind_result_extraction "GSSAPI" [1]
    (BerPacket.mk BerClass.universal true TagSequence BerValue.null []
      [berNewInteger BerClass.universal false TagInteger 2,
       BerPacket.mk BerClass.application true 1 BerValue.null []
         [berNewInteger BerClass.universal false TagInteger 0,
          berNewString BerClass.universal false TagOctetString "",
          berNewString BerClass.universal false TagOctetString "",
          BerPacket.mk BerClass.context false 7 BerValue.null [7, 7] []]])
    (berNewInteger BerClass.universal false TagInteger 2)
    (BerPacket.mk BerClass.application true 1 BerValue.null []
      [berNewInteger BerClass.universal false TagInteger 0,
       berNewString BerClass.universal false TagOctetString "",
       berNewString BerClass.universal false TagOctetString "",
       BerPacket.mk BerClass.context false 7 BerValue.null [7, 7] []])
    (berNewInteger BerClass.universal false TagInteger 0)
    (berNewString BerClass.universal false TagOctetString "")
    (berNewString BerClass.universal false TagOctetString "")
    [BerPacket.mk BerClass.context false 7 BerValue.null [7, 7] []]
    [] 0 "" rfl rfl rfl rfl rfl rfl
  simpa using h

/-- C10: when the server result code is non-zero and the three-child
response envelope's controls all decode, `SimpleBind` returns the non-nil
result carrying the decoded controls together with the result-code error;
and (past the empty-password guard) a nil result arises only from a
transport failure or a control-decode failure. -/
theorem simpleBind_nonzero_code_returns_result (st : ConnState)
    (req : SimpleBindRequest)
    (p midPkt respPkt ctrlsPkt codePkt dnPkt diagPkt : BerPacket)
    (extra : List BerPacket) (i : Int) (s : String) (ds : List Control)
    (hguard : ¬(req.password = "" ∧ req.allowEmptyPassword = false))
    (hp : p.children = [midPkt, respPkt, ctrlsPkt])
    (hresp : respPkt.children = codePkt :: dnPkt :: diagPkt :: extra)
    (hcode : codePkt.value = BerValue.int i)
    (hdiag : diagPkt.value = BerValue.str s)
    (hnz : i ≠ 0)
    (hdec : decodeControls ctrlsPkt.children = Except.ok ds) :
    (SimpleBind st req (Except.ok p)).1 =
      (some ⟨ds⟩, some (LDAPError.resultCode i s)) ∧
    (∀ t, (SimpleBind st req t).1.1 = none →
      (∃ e, t = Except.error e) ∨
      (∃ msg, (SimpleBind st req t).1.2 =
        some (LDAPError.decodeControlFailed msg))) := by
  constructor
  · simp [SimpleBind, hguard, bindResponseControls, GetLDAPError, hp, hresp,
      hcode, hdiag, hnz, hdec]
  · intro t hnone
    cases t with
    | error e => exact Or.inl ⟨e, rfl⟩
    | ok q =>
      right
      cases hD : bindResponseControls q with
      | error msg =>
        exact ⟨msg, by simp [SimpleBind, hguard, hD]⟩
      | ok ds2 =>
        simp [SimpleBind, hguard, hD] at hnone

/-- Witness for C10: a stub three-child response with result code 49, one
opaque decodable control, and diagnostic "invalid credentials"; the bind
returns both the decoded control and the error. -/
theorem simpleBind_nonzero_code_returns_result_witness :
    (SimpleBind ⟨1, []⟩ ⟨"cn=admin,dc=example,dc=com", "secret", [], false⟩
        (Except.ok (BerPacket.mk BerClass.universal true TagSequence
          BerValue.null []
          [berNewInteger BerClass.universal false TagInteger 1,
           BerPacket.mk BerClass.application true 1 BerValue.null []
             [berNewInteger BerClass.universal false TagInteger 49,
              berNewString BerClass.universal false TagOctetString "",
              berNewString BerClass.universal false TagOctetString
                "invalid credentials"],
           BerPacket.mk BerClass.context true 0 BerValue.null []
             [BerPacket.mk BerClass.universal true TagSequence BerValue.null
               []
               [berNewString BerClass.universal false TagOctetString
                 "1.2.3.4"]]]))).1 =
      (some ⟨[Control.other "1.2.3.4" false []]⟩,
        some (LDAPError.resultCode 49 "invalid credentials")) := by
  have h := simpleBind_nonzero_code_returns_result ⟨1, []⟩
    ⟨"cn=admin,dc=example,dc=com", "secret", [], false⟩
    (BerPacket.mk BerClass.universal true TagSequence BerValue.null []
      [berNewInteger BerClass.universal false TagInteger 1,
       BerPacket.mk BerClass.application true 1 BerValue.null []
         [berNewInteger BerClass.universal false TagInteger 49,
          berNewString BerClass.universal false TagOctetString "",
          berNewString BerClass.universal false TagOctetString
            "invalid credentials"],
       BerPacket.mk BerClass.context true 0 BerValue.null []
         [BerPacket.mk BerClass.universal true TagSequence BerValue.null []
           [berNewString BerClass.universal false TagOctetString
             "1.2.3.4"]]])
    (berNewInteger BerClass.universal false TagInteger 1)
    (BerPacket.mk BerClass.application true 1 BerValue.null []
      [berNewInteger BerClass.universal false TagInteger 49,
       berNewString BerClass.universal false TagOctetString "",
       berNewString BerClass.universal false TagOctetString
         "invalid credentials"])
    (BerPacket.mk BerClass.context true 0 BerValue.null []
      [BerPacket.mk BerClass.universal true TagSequence BerValue.null []
        [berNewString BerClass.universal false TagOctetString "1.2.3.4"]])
    (berNewInteger BerClass.universal false TagInteger 49)
    (berNewString BerClass.universal false TagOctetString "")
    (berNewString BerClass.universal false TagOctetString
      "invalid credentials")
    [] 49 "invalid credentials" [Control.other "1.2.3.4" false []]
    (by decide) rfl rfl rfl rfl (by decide) rfl
  exact h.1

end TrustelemLdap
